import Mathlib

/-!
Verification of the replay-manager record store, filter engine, retention
sweeper and naming policy (src/core/database.py, src/ui/main_window.py,
src/ui/widgets/replay_table.py, src/ui/dialogs/utility_dialogs.py),
as a shallow embedding in Lean.

Strings in the program are ASCII in every case the claims exercise, so
Python str.lower is embedded as ASCII lowercasing and SQLite BINARY
TEXT comparison as lexicographic comparison of character codes.
-/

namespace RKM

/-- ASCII lowercase of one character (Python str.lower restricted to ASCII). -/
def asciiLower (c : Char) : Char :=
  if 'A' ≤ c ∧ c ≤ 'Z' then Char.ofNat (c.toNat + 32) else c

/-- Python str.lower on an ASCII string. -/
def strLower (s : String) : String :=
  ⟨s.data.map asciiLower⟩

/-- Drop whitespace at both ends of a character list (Python str.strip()). -/
def trimWs (l : List Char) : List Char :=
  ((l.dropWhile Char.isWhitespace).reverse.dropWhile Char.isWhitespace).reverse

/-- Python str.strip(). -/
def strStrip (s : String) : String :=
  ⟨trimWs s.data⟩

/-- Python str.split9 on a single comma: "a,b".split stays [a, b], "" gives [""]. -/
def splitOnComma : List Char → List (List Char)
  | [] => [[]]
  | c :: rest =>
    match splitOnComma rest with
    | [] => [[]]
    | g :: gs => if c = ',' then [] :: g :: gs else (c :: g) :: gs

/-- Whether the first character list is a prefix of the second. -/
def hasPrefixChars : List Char → List Char → Bool
  | [], _ => true
  | _ :: _, [] => false
  | a :: as, b :: bs => a == b && hasPrefixChars as bs

/-- Python substring containment p in s, on character lists. -/
def containsSub (s p : List Char) : Bool :=
  match s with
  | [] => p.isEmpty
  | _ :: rest => hasPrefixChars p s || containsSub rest p

/-- Python substring test needle in haystack on strings. -/
def strContains (haystack needle : String) : Bool :=
  containsSub haystack.data needle.data

/-- SQLite BINARY collation: memcmp order on the UTF-8 bytes; for ASCII text
this is lexicographic comparison of character codes. -/
def memcmpLt : List Char → List Char → Bool
  | [], [] => false
  | [], _ :: _ => true
  | _ :: _, [] => false
  | a :: as, b :: bs =>
    if a.toNat < b.toNat then true
    else if b.toNat < a.toNat then false
    else memcmpLt as bs

/-- SQLite TEXT comparison a < b under the default BINARY collation. -/
def sqliteTextLt (a b : String) : Bool :=
  memcmpLt a.data b.data

/- ## Calendar model

Python datetime arithmetic (datetime.now() - timedelta(days=d)) is exact
proleptic-Gregorian calendar arithmetic.  We embed a datetime as a civil
date plus time of day and use the standard civil-from-days / days-from-civil
conversion (valid for every year ≥ 1, which covers all program inputs). -/

structure DateTime where
  year : Nat
  month : Nat
  day : Nat
  hour : Nat
  minute : Nat
  second : Nat
  deriving DecidableEq

/-- Day count of a civil date, measured from 0000-03-01 (Gregorian). -/
def daysFromCivil (y m d : Nat) : Nat :=
  let y2 := if m ≤ 2 then y - 1 else y
  let era := y2 / 400
  let yoe := y2 % 400
  let mp := (m + 9) % 12
  let doy := (153 * mp + 2) / 5 + d - 1
  let doe := yoe * 365 + yoe / 4 - yoe / 100 + doy
  era * 146097 + doe

/-- Civil date (year, month, day) of a day count from 0000-03-01. -/
def civilFromDays (z : Nat) : Nat × Nat × Nat :=
  let era := z / 146097
  let doe := z % 146097
  let yoe := (doe - doe / 1460 + doe / 36524 - doe / 146096) / 365
  let y := yoe + era * 400
  let doy := doe - (365 * yoe + yoe / 4 - yoe / 100)
  let mp := (5 * doy + 2) / 153
  let d := doy - (153 * mp + 2) / 5 + 1
  let m := if mp < 10 then mp + 3 else mp - 9
  (if m ≤ 2 then y + 1 else y, m, d)

/-- datetime - timedelta(days = n), keeping the time of day. -/
def subDays (dt : DateTime) (n : Nat) : DateTime :=
  let z := daysFromCivil dt.year dt.month dt.day - n
  let c := civilFromDays z
  ⟨c.1, c.2.1, c.2.2, dt.hour, dt.minute, dt.second⟩

/-- Absolute second count of a datetime (for chronological comparison). -/
def toSecondsDT (dt : DateTime) : Nat :=
  daysFromCivil dt.year dt.month dt.day * 86400
    + dt.hour * 3600 + dt.minute * 60 + dt.second

/-- Zero-padded two-digit decimal. -/
def pad2 (n : Nat) : String :=
  if n < 10 then "0" ++ toString n else toString n

/-- strftime "%m-%d-%Y %H:%M:%S", the timestamp format used throughout
database.py for date_added and deleted_date. -/
def fmtDateTime (dt : DateTime) : String :=
  pad2 dt.month ++ "-" ++ pad2 dt.day ++ "-" ++ toString dt.year ++ " "
    ++ pad2 dt.hour ++ ":" ++ pad2 dt.minute ++ ":" ++ pad2 dt.second

/- ## Record store (src/core/database.py, class ReplayDatabase)

A row of the replays table, without the autoincrement surrogate id
(the store never exposes it and no operation keys on it).  Column types
follow the schema in _initialize_db: recorded is INTEGER, renamed_filename
is NULL until a rename succeeds. -/

structure Replay where
  video_link : String
  file_name : String
  timestamp : String
  ufc : String
  extended_desc : String
  recorded : Int
  renamed_filename : Option String
  date_added : String
  tags : String
  deriving DecidableEq

/-- A row of the recycle_bin table: the same columns plus deleted_date. -/
structure RecycledReplay where
  video_link : String
  file_name : String
  timestamp : String
  ufc : String
  extended_desc : String
  recorded : Int
  renamed_filename : Option String
  date_added : String
  deleted_date : String
  tags : String
  deriving DecidableEq

/-- The two record collections owned by one catalog database. -/
structure DbState where
  replays : List Replay
  recycle_bin : List RecycledReplay
  deriving DecidableEq

/-- Failures an operation can surface.  integrityError is the sqlite3
IntegrityError raised when an INSERT violates a UNIQUE constraint;
notFoundError is the error the spec taxonomy names, which no code path
in database.py ever raises. -/
inductive DbError where
  | notFoundError
  | integrityError
  deriving DecidableEq

/-- A value bound into a parameterized query. -/
inductive SqlValue where
  | s (v : String)
  | i (v : Int)
  deriving DecidableEq

/-- ReplayDatabase.add_replay.  The generated code (uuid-based in
_generate_ufc) and the date_added stamp (datetime.now) are oracle inputs.
The INSERT names columns video_link..tags, leaving renamed_filename NULL
and recorded 0; the UNIQUE constraint on replays.ufc (and only on that
table) rejects a duplicate within the active table. -/
def add_replay (db : DbState) (ufc : String)
    (file_name timestamp video_link description tags date_added : String) :
    Except DbError (DbState × String) :=
  if db.replays.any (fun r => r.ufc == ufc) then
    .error .integrityError
  else
    .ok ({ db with replays := db.replays ++
      [⟨video_link, file_name, timestamp, ufc, description, 0, none, date_added, tags⟩] },
      ufc)

/-- The editable columns recognized by ReplayDatabase.update_replay. -/
def valid_fields : List String :=
  ["file_name", "timestamp", "video_link", "extended_desc", "recorded", "tags"]

/-- Effect of one SET clause field = value on a row. -/
def applyUpdateField (r : Replay) (kv : String × SqlValue) : Replay :=
  match kv with
  | ("file_name", .s v) => { r with file_name := v }
  | ("timestamp", .s v) => { r with timestamp := v }
  | ("video_link", .s v) => { r with video_link := v }
  | ("extended_desc", .s v) => { r with extended_desc := v }
  | ("recorded", .i v) => { r with recorded := v }
  | ("tags", .s v) => { r with tags := v }
  | ("renamed_filename", .s v) => { r with renamed_filename := some v }
  | _ => r

/-- ReplayDatabase.update_replay: keeps only the kwargs whose name is in
valid_fields, returns silently when none remain, otherwise runs
UPDATE replays SET ... WHERE ufc = ?.  An UPDATE matching zero rows
succeeds silently in SQLite, so an absent ufc raises nothing. -/
def update_replay (db : DbState) (ufc : String)
    (kwargs : List (String × SqlValue)) : Except DbError DbState :=
  let updates := kwargs.filter (fun kv => valid_fields.contains kv.1)
  if updates.isEmpty then
    .ok db
  else
    .ok { db with replays := db.replays.map (fun r =>
            if r.ufc == ufc then updates.foldl applyUpdateField r else r) }

/-- The recycled row built by _move_to_recycle_bin from an active row.
The INSERT lists its columns as (video_link, file_name, timestamp, ufc,
extended_desc, recorded, renamed_filename, date_added, deleted_date,
tags) but binds the tuple (*data, deleted_date), whose last two values
are the SELECTed tags followed by the timestamp: positionally, the
deleted_date column receives the record's tags string and the tags
column receives the deletion timestamp. -/
def toRecycled (r : Replay) (deleted_date : String) : RecycledReplay :=
  { video_link := r.video_link
    file_name := r.file_name
    timestamp := r.timestamp
    ufc := r.ufc
    extended_desc := r.extended_desc
    recorded := r.recorded
    renamed_filename := r.renamed_filename
    date_added := r.date_added
    deleted_date := r.tags
    tags := deleted_date }

/-- ReplayDatabase._move_to_recycle_bin: SELECT the row by ufc (returning
silently when absent), INSERT it into recycle_bin together with the
deleted_date = datetime.now() timestamp (an oracle input here; the
positional binding lands it in the tags column, see toRecycled), DELETE
the row from replays, all inside one connection context that commits on
success and rolls back when the INSERT hits the recycle_bin.ufc UNIQUE
constraint. -/
def move_to_recycle_bin (db : DbState) (ufc : String) (deleted_date : String) :
    Except DbError DbState :=
  match db.replays.find? (fun r => r.ufc == ufc) with
  | none => .ok db
  | some r =>
    if db.recycle_bin.any (fun b => b.ufc == ufc) then
      .error .integrityError
    else
      .ok ⟨db.replays.filter (fun x => !(x.ufc == ufc)),
           db.recycle_bin ++ [toRecycled r deleted_date]⟩

/-- ReplayDatabase.delete_replay. -/
def delete_replay (db : DbState) (ufc : String) (permanent : Bool)
    (deleted_date : String) : Except DbError DbState :=
  if permanent then
    .ok { db with replays := db.replays.filter (fun x => !(x.ufc == ufc)) }
  else
    move_to_recycle_bin db ufc deleted_date

/-- The active row rebuilt by RecycleBinDialog._restore_items from a
recycled row: it SELECTs the nine columns ending with the bin's tags
column and never reads the bin's deleted_date column.  After a soft
delete the bin's tags column holds the deletion timestamp and the
original tags sit unread in deleted_date (see toRecycled). -/
def toReplay (b : RecycledReplay) : Replay :=
  ⟨b.video_link, b.file_name, b.timestamp, b.ufc, b.extended_desc,
   b.recorded, b.renamed_filename, b.date_added, b.tags⟩

/-- One iteration of RecycleBinDialog._restore_items: SELECT the recycled
row by ufc (continue when absent), INSERT it back into replays
(replays.ufc UNIQUE can reject it), DELETE it from recycle_bin. -/
def restore_item (db : DbState) (ufc : String) : Except DbError DbState :=
  match db.recycle_bin.find? (fun b => b.ufc == ufc) with
  | none => .ok db
  | some b =>
    if db.replays.any (fun r => r.ufc == ufc) then
      .error .integrityError
    else
      .ok ⟨db.replays ++ [toReplay b],
           db.recycle_bin.filter (fun x => !(x.ufc == ufc))⟩

/-- ReplayDatabase.auto_cleanup_recycle_bin: computes the threshold string
(datetime.now() - timedelta(days=days)).strftime("%m-%d-%Y %H:%M:%S") and
runs DELETE FROM recycle_bin WHERE deleted_date < ?, a TEXT comparison
under the BINARY collation. -/
def auto_cleanup_recycle_bin (db : DbState) (now : DateTime) (days : Nat) :
    DbState :=
  let threshold := fmtDateTime (subDays now days)
  { db with recycle_bin :=
      db.recycle_bin.filter (fun r => !(sqliteTextLt r.deleted_date threshold)) }

/- ## Filter engine (src/ui/widgets/replay_table.py)

One row of the table model as filled by ReplayTable.load_replays, column
order: 0 file_name, 1 timestamp, 2 ufc, 3 recorded (check state),
4 video_link, 5 description, 6 date_added, 7 tags. -/

structure TableRow where
  file_name : String
  timestamp : String
  ufc : String
  recorded : Bool
  video_link : String
  description : String
  date_added : String
  tags : String
  deriving DecidableEq

/-- Mutable state of ReplaySortFilterProxy.  use_and_logic is not declared
in __init__; MainWindow._show_tag_filter_dialog assigns it onto the proxy
object, and filterAcceptsRow never reads it. -/
structure ProxyState where
  search_text : String
  tag_filters : List String
  recorded_filter : Option Bool
  use_and_logic : Bool
  deriving DecidableEq

/-- ReplaySortFilterProxy.__init__ field values (use_and_logic absent until
assigned; Python getattr default false mirrors the dialog default). -/
def initialProxy : ProxyState :=
  ⟨"", [], none, false⟩

/-- ReplaySortFilterProxy.setSearchText: stores text.lower().strip(). -/
def setSearchText (p : ProxyState) (text : String) : ProxyState :=
  { p with search_text := strStrip (strLower text) }

/-- ReplaySortFilterProxy.setTagFilter: stores [t.lower() for t in tags]. -/
def setTagFilter (p : ProxyState) (tags : List String) : ProxyState :=
  { p with tag_filters := tags.map strLower }

/-- The tag list a row contributes to the tag filter:
[t.strip() for t in tags.split(",")] where tags is already lowercased. -/
def rowTagList (tagsLower : String) : List (List Char) :=
  (splitOnComma tagsLower.data).map trimWs

/-- ReplaySortFilterProxy.filterAcceptsRow.  The description variable is
read from model column 4, which load_replays fills with video_link
(description sits in column 5); the tag filter tests membership of each
filter tag with any(...), with no ALL branch. -/
def filterAcceptsRow (p : ProxyState) (row : TableRow) : Bool :=
  let file_name := strLower row.file_name
  let description := strLower row.video_link
  let tags := strLower row.tags
  let recorded := row.recorded
  if p.search_text ≠ "" &&
      !(strContains file_name p.search_text
        || strContains description p.search_text
        || strContains tags p.search_text) then
    false
  else if !p.tag_filters.isEmpty &&
      !(p.tag_filters.any (fun ft => (rowTagList tags).contains ft.data)) then
    false
  else if p.recorded_filter.isSome &&
      recorded != p.recorded_filter.getD false then
    false
  else
    true

/-- MainWindow._show_tag_filter_dialog acceptance path: assigns
proxy.use_and_logic from the dialog, then applies the selected tags
through setTagFilter (via ReplayTable.apply_filters). -/
def applyTagFilterFromDialog (p : ProxyState) (selected : List String)
    (use_and : Bool) : ProxyState :=
  setTagFilter { p with use_and_logic := use_and } selected

/- ## Naming policy (src/ui/main_window.py) -/

/-- The character class of re.sub(r'[\\/:\*\?\"<>\|]', '_', name). -/
def fsUnsafeChars : List Char :=
  ['\\', '/', ':', '*', '?', '"', '<', '>', '|']

/-- re.sub(r'-+', '-', s): collapse every run of hyphens to one. -/
def collapseHyphens : List Char → List Char
  | [] => []
  | [c] => [c]
  | a :: b :: rest =>
    if a = '-' && b = '-' then collapseHyphens (b :: rest)
    else a :: collapseHyphens (b :: rest)

/-- Python str.strip("-"). -/
def stripHyphens (l : List Char) : List Char :=
  ((l.dropWhile (· = '-')).reverse.dropWhile (· = '-')).reverse

/-- MainWindow._sanitize_character_name (the same four steps appear inline
in on_add_replay): replace filesystem-unsafe characters with underscore,
lowercase, spaces to hyphens, collapse hyphen runs, strip edge hyphens. -/
def sanitize_character_name (name : String) : String :=
  let s1 := name.data.map (fun c => if fsUnsafeChars.contains c then '_' else c)
  let s2 := s1.map asciiLower
  let s3 := s2.map (fun c => if c = ' ' then '-' else c)
  ⟨stripHyphens (collapseHyphens s3)⟩

/- ## The add flow (MainWindow.on_add_replay calling add_replay) -/

/-- The keyword parameters accepted by ReplayDatabase.add_replay
(file_name, timestamp, video_link, description, tags; no ufc, no kwargs
catch-all). -/
def add_replay_params : List String :=
  ["file_name", "timestamp", "video_link", "description", "tags"]

/-- The keyword argument names MainWindow.on_add_replay passes at the
self.database.add_replay(...) call site. -/
def on_add_replay_kwargs : List String :=
  ["file_name", "timestamp", "video_link", "description", "tags", "ufc"]

/-- Python call binding for a call made with keyword arguments only:
binding succeeds exactly when every keyword names a declared parameter;
otherwise the call raises TypeError before the callee body runs. -/
def bindCallKwargs (params kwargs : List String) : Bool :=
  kwargs.all (fun k => params.contains k)

/-- Exceptions observable inside the try block of on_add_replay. -/
inductive PyError where
  | typeError
  | dbError
  deriving DecidableEq

/-- The database step of MainWindow.on_add_replay: the guarded call
self.database.add_replay(file_name=..., ..., ufc=ufc).  When keyword
binding fails the call raises TypeError and the insert never runs; the
surrounding try/except reports the exception and leaves the store as it
was. -/
def on_add_replay_db_step (db : DbState) (ufc : String)
    (file_name timestamp video_link description tags date_added : String) :
    DbState × Option PyError :=
  if bindCallKwargs add_replay_params on_add_replay_kwargs then
    match add_replay db ufc file_name timestamp video_link description tags date_added with
    | .ok (db2, _) => (db2, none)
    | .error _ => (db, some .dbError)
  else
    (db, some .typeError)

/- ## Sample data used by concrete witnesses -/

/-- A representative active record (ufc "UFC-0001"). -/
def sampleReplay : Replay :=
  ⟨"http://v", "replay-file", "12:30", "UFC-0001", "great round", 0, none,
   "01-01-2026 10:00:00", "A,B"⟩

/- ## Helper lemmas on lists -/

theorem map_if_eq_self {α : Type} (p : α → Bool) (f : α → α) (l : List α)
    (h : l.any p = false) :
    l.map (fun x => if p x then f x else x) = l := by
  induction l with
  | nil => rfl
  | cons a t ih =>
    simp only [List.any_cons, Bool.or_eq_false_iff] at h
    simp [h.1, ih h.2]

theorem find?_eq_none_of_any_false {α : Type} (p : α → Bool) (l : List α)
    (h : l.any p = false) : l.find? p = none := by
  induction l with
  | nil => rfl
  | cons a t ih =>
    simp only [List.any_cons, Bool.or_eq_false_iff] at h
    simp [List.find?, h.1, ih h.2]

theorem filter_not_eq_self {α : Type} (p : α → Bool) (l : List α)
    (h : l.any p = false) : l.filter (fun x => !(p x)) = l := by
  induction l with
  | nil => rfl
  | cons a t ih =>
    simp only [List.any_cons, Bool.or_eq_false_iff] at h
    simp [List.filter, h.1, ih h.2]

theorem any_filter_not {α : Type} (p : α → Bool) (l : List α) :
    (l.filter (fun x => !(p x))).any p = false := by
  induction l with
  | nil => rfl
  | cons a t ih =>
    by_cases hpa : p a = true
    · simp [List.filter, hpa, ih]
    · simp only [Bool.not_eq_true] at hpa
      simp [List.filter, hpa, ih]

theorem countP_eq_zero_of_any_false {α : Type} (p : α → Bool) (l : List α)
    (h : l.any p = false) : l.countP p = 0 := by
  induction l with
  | nil => rfl
  | cons a t ih =>
    simp only [List.any_cons, Bool.or_eq_false_iff] at h
    simp [List.countP_cons, h.1, ih h.2]

theorem find?_append_of_none {α : Type} (p : α → Bool) (l1 l2 : List α)
    (h : l1.find? p = none) : (l1 ++ l2).find? p = l2.find? p := by
  induction l1 with
  | nil => rfl
  | cons a t ih =>
    simp only [List.find?] at h
    cases hpa : p a with
    | false =>
      rw [hpa] at h
      simp [List.find?, hpa, ih h]
    | true => rw [hpa] at h; exact absurd h (by simp)

/- ## Claim theorems -/

/-- C1: auto_cleanup_recycle_bin compares deleted_date strings in
"%m-%d-%Y %H:%M:%S" format under SQLite BINARY collation, so the claim
that exactly the records strictly older than now minus days are removed
fails across a year boundary: at now = Jan 30 2027 12:00:00 the threshold
string is "12-31-2026 12:00:00", and a record deleted Jan 1 2027 12:00:00
(exactly 29 days before now, hence NOT expired under the 30-day rule) has
deleted_date "01-01-2027 12:00:00", which sorts below the threshold and is
purged. -/
theorem auto_cleanup_purges_record_newer_than_threshold :
    toSecondsDT ⟨2027, 1, 30, 12, 0, 0⟩ =
      toSecondsDT ⟨2027, 1, 1, 12, 0, 0⟩ + 29 * 86400
    ∧ fmtDateTime ⟨2027, 1, 1, 12, 0, 0⟩ = "01-01-2027 12:00:00"
    ∧ fmtDateTime (subDays ⟨2027, 1, 30, 12, 0, 0⟩ 30) = "12-31-2026 12:00:00"
    ∧ auto_cleanup_recycle_bin
        ⟨[], [⟨"http://v", "replay-file", "12:30", "UFC-0005", "great round",
               0, none, "01-01-2026 10:00:00", "01-01-2027 12:00:00", "A,B"⟩]⟩
        ⟨2027, 1, 30, 12, 0, 0⟩ 30
      = ⟨[], []⟩ := by
  refine ⟨by decide, by decide, by decide, by decide⟩

/-- C3: MainWindow.on_add_replay calls add_replay with keyword set
including ufc, which is not among the parameters of add_replay, so Python
keyword binding fails: the call raises TypeError before the insert runs
and the store is unchanged, for every store state and every argument
value. -/
theorem on_add_replay_raises_type_error
    (db : DbState) (ufc fn ts vl ds tg da : String) :
    on_add_replay_db_step db ufc fn ts vl ds tg da
      = (db, some PyError.typeError) := rfl

/-- C4: with filter tags B and C and the dialog set to ALL mode,
filterAcceptsRow accepts all three of the records tagged "A,B", "B,C" and
"C", because it tests the filter tags with any(...) and never reads
use_and_logic: the claim expects only "B,C" accepted.  The last conjunct
records that "A,B" lacks filter tag c, so ALL-of matching would reject
it. -/
theorem tag_filter_all_mode_accepts_any_match :
    (applyTagFilterFromDialog initialProxy ["B", "C"] true).use_and_logic = true
    ∧ filterAcceptsRow (applyTagFilterFromDialog initialProxy ["B", "C"] true)
        ⟨"r1", "", "UFC-0001", false, "", "", "", "A,B"⟩ = true
    ∧ filterAcceptsRow (applyTagFilterFromDialog initialProxy ["B", "C"] true)
        ⟨"r2", "", "UFC-0002", false, "", "", "", "B,C"⟩ = true
    ∧ filterAcceptsRow (applyTagFilterFromDialog initialProxy ["B", "C"] true)
        ⟨"r3", "", "UFC-0003", false, "", "", "", "C"⟩ = true
    ∧ (rowTagList (strLower "A,B")).contains "c".data = false := by
  refine ⟨rfl, by decide, by decide, by decide, by decide⟩

/-- C5 counterexample: sanitizing "Chun-Li!! " does not yield "chun-li":
the exclamation marks are not in the replaced character class and
survive every step. -/
theorem sanitize_chun_li_ne_claimed :
    sanitize_character_name "Chun-Li!! " ≠ "chun-li" := by decide

/-- C5 amended: sanitizing "Chun-Li!! " yields "chun-li!!" (unsafe
characters underscored, lowercased, spaces to hyphens, hyphen runs
collapsed, edge hyphens stripped; punctuation outside the replaced class
is preserved). -/
theorem sanitize_chun_li_value :
    sanitize_character_name "Chun-Li!! " = "chun-li!!" := by decide

/-- C6: update_replay(ufc, renamed_filename=x) on an existing active
record is a silent no-op, because renamed_filename is missing from
valid_fields, so the store never records a rename even though
MainWindow.rename_selected_files calls exactly this. -/
theorem update_renamed_filename_is_no_op :
    update_replay ⟨[sampleReplay], []⟩ "UFC-0001"
        [("renamed_filename", SqlValue.s "x.mp4")]
      = .ok ⟨[sampleReplay], []⟩
    ∧ valid_fields.contains "renamed_filename" = false := by
  refine ⟨rfl, by decide⟩

/-- C9: ufc uniqueness is enforced per table only, so add_replay happily
inserts an active record whose generated code equals the ufc of an
existing recycled record: starting from a store whose recycle bin holds
UFC-0001 (a state reached by creating and soft-deleting that record), a
create whose generated code is again UFC-0001 succeeds and leaves
UFC-0001 present in both collections at once. -/
theorem add_accepts_ufc_of_recycled_record :
    add_replay ⟨[], [toRecycled sampleReplay "01-02-2026 00:00:00"]⟩
        "UFC-0001" "f2" "" "" "" "" "01-03-2026 00:00:00"
      = .ok (⟨[⟨"", "f2", "", "UFC-0001", "", 0, none, "01-03-2026 00:00:00", ""⟩],
             [toRecycled sampleReplay "01-02-2026 00:00:00"]⟩, "UFC-0001")
    ∧ [(⟨"", "f2", "", "UFC-0001", "", 0, none, "01-03-2026 00:00:00", ""⟩ : Replay)].any
        (fun r => r.ufc == "UFC-0001") = true
    ∧ [toRecycled sampleReplay "01-02-2026 00:00:00"].any
        (fun b => b.ufc == "UFC-0001") = true := by
  refine ⟨rfl, by decide, by decide⟩

/-- C10: the text filter never sees the description: filterAcceptsRow
reads model column 4, which load_replays fills with video_link
(description is column 5), so a record whose description contains
"parry" (case-insensitively) is rejected for the query "parry" when the
other searched fields lack it. -/
theorem search_filter_misses_description :
    filterAcceptsRow (setSearchText initialProxy "parry")
        ⟨"replay1", "", "UFC-0002", false, "", "Perfect Parry", "", ""⟩ = false
    ∧ strContains (strLower "Perfect Parry") (strLower "parry") = true := by
  refine ⟨by decide, by decide⟩

/-- C2 counterexample: on a ufc absent from the active collection, both
update_replay (with the recognized field file_name) and
delete_replay(permanent=False) return successfully with the store
unchanged, instead of raising NotFoundError: no code path in database.py
produces that error. -/
theorem absent_ufc_operations_return_ok :
    update_replay ⟨[sampleReplay], []⟩ "UFC-9999" [("file_name", SqlValue.s "x")]
      = .ok ⟨[sampleReplay], []⟩
    ∧ delete_replay ⟨[sampleReplay], []⟩ "UFC-9999" false "01-02-2026 00:00:00"
      = .ok ⟨[sampleReplay], []⟩ :=
  ⟨rfl, rfl⟩

/-- C2 amended: for every ufc absent from the active collection,
update_replay (with any field set) and delete_replay(permanent=False)
return silently with no state change; neither raises NotFoundError. -/
theorem absent_ufc_operations_silent_no_op
    (db : DbState) (u dd : String) (kwargs : List (String × SqlValue))
    (h : db.replays.any (fun r => r.ufc == u) = false) :
    update_replay db u kwargs = .ok db
    ∧ delete_replay db u false dd = .ok db := by
  constructor
  · unfold update_replay
    dsimp only
    by_cases hc :
        (kwargs.filter (fun kv => valid_fields.contains kv.1)).isEmpty = true
    · rw [if_pos hc]
    · rw [if_neg hc, map_if_eq_self _ _ _ h]
  · unfold delete_replay move_to_recycle_bin
    simp [find?_eq_none_of_any_false _ _ h]

/-- C2 amended witness at a concrete store lacking UFC-9999. -/
theorem absent_ufc_operations_silent_no_op_witness :
    ([sampleReplay].any (fun r => r.ufc == "UFC-9999") = false)
    ∧ (update_replay ⟨[sampleReplay], []⟩ "UFC-9999"
          [("tags", SqlValue.s "X")] = .ok ⟨[sampleReplay], []⟩
       ∧ delete_replay ⟨[sampleReplay], []⟩ "UFC-9999" false
          "01-05-2026 00:00:00" = .ok ⟨[sampleReplay], []⟩) :=
  ⟨by decide,
   absent_ufc_operations_silent_no_op ⟨[sampleReplay], []⟩ "UFC-9999"
     "01-05-2026 00:00:00" [("tags", SqlValue.s "X")] (by decide)⟩

/-- C7: delete_replay(permanent=False) does move the one record out of
the active list and into the recycle bin, but the field-preservation and
stamping parts of the claim fail: the INSERT in _move_to_recycle_bin
lists its last three columns as date_added, deleted_date, tags while the
bound tuple (*data, deleted_date) ends with tags followed by the
timestamp, so soft-deleting the record with tags "A,B" at
02-01-2026 00:00:00 produces a recycled row whose deleted_date column
holds "A,B" and whose tags column holds "02-01-2026 00:00:00", instead
of deleted_date being stamped with the time of the call and tags being
preserved. -/
theorem soft_delete_swaps_tags_and_deleted_date :
    delete_replay ⟨[sampleReplay], []⟩ "UFC-0001" false "02-01-2026 00:00:00"
      = .ok ⟨[], [⟨"http://v", "replay-file", "12:30", "UFC-0001",
                   "great round", 0, none, "01-01-2026 10:00:00",
                   "A,B", "02-01-2026 00:00:00"⟩]⟩
    ∧ sampleReplay.tags = "A,B"
    ∧ (toRecycled sampleReplay "02-01-2026 00:00:00").deleted_date = "A,B"
    ∧ (toRecycled sampleReplay "02-01-2026 00:00:00").tags
        = "02-01-2026 00:00:00" := by
  refine ⟨rfl, by decide, by decide, by decide⟩

/-- C8: soft delete followed by restore on the same ufc does not return
the pre-delete record: the original tags ride into the bin's
deleted_date column (see toRecycled) and _restore_items copies the bin's
tags column — which holds the deletion timestamp — back as the active
record's tags, so the record that had tags "A,B" comes back with tags
"02-02-2026 00:00:00"; the pre-delete record is not recovered. -/
theorem soft_delete_restore_corrupts_tags :
    (delete_replay ⟨[sampleReplay], []⟩ "UFC-0001" false
        "02-02-2026 00:00:00").bind (fun db1 => restore_item db1 "UFC-0001")
      = .ok ⟨[{ sampleReplay with tags := "02-02-2026 00:00:00" }], []⟩
    ∧ sampleReplay.tags = "A,B"
    ∧ { sampleReplay with tags := "02-02-2026 00:00:00" } ≠ sampleReplay := by
  refine ⟨rfl, by decide, by decide⟩

end RKM

